import Mathlib

/-!
Shallow embedding of the predator-prey simulation from
`src/entidades.rs` and `src/simulacion.rs`.

Modelling conventions:
* `f64` values (weights, reserves, probabilities) are embedded as `ℚ`;
  the Gompertz curve itself, which uses `exp`, is embedded separately
  over `ℝ` (`crearFuncionGompertz`).  The simulation step functions are
  parameterised by a growth function `crec : Especie → ℕ → ℚ`, standing
  for the per-entity closure produced by `crear_funcion_gompertz` with
  the species' parameters (each entity of a species carries the same
  closure, so a species-indexed function is equivalent).
* Randomness: the Rust code draws randomness two ways — through the
  `ThreadRng` handle (`rng.gen_bool`, `rng.gen_range`, `slice.choose(rng)`)
  and through the global `rand::random::<f64>()` inside `envejecer`.
  `RandState` models both access paths: `flt`/`nat` are the streams of
  values produced through the handle (float draws and integer draws),
  `amb` is the stream of values produced by the global `rand::random`
  calls, each with its own position counter.  A draw consumes the value
  at the current position and advances the position.
-/

/-- Rust enum `Sexo` (variants `Macho`, `Hembra`) from `entidades.rs`. -/
inductive Sexo where
  | Macho : Sexo
  | Hembra : Sexo
deriving DecidableEq, Repr

/-- Rust enum `Especie` (variants `Conejo`, `Cabra`) from `entidades.rs`. -/
inductive Especie where
  | Conejo : Especie
  | Cabra : Especie
deriving DecidableEq, Repr

/-- Constant `N_CONEJOS_INICIAL`. -/
def nConejosInicial : ℕ := 60
/-- Constant `N_CABRAS_INICIAL`. -/
def nCabrasInicial : ℕ := 25
/-- Constant `DEPREDADOR_RESERVA_INICIAL_KG`. -/
def depredadorReservaInicialKg : ℚ := 900
/-- Constant `DEPREDADOR_CONSUMO_MINIMO_DIARIO_KG`. -/
def depredadorConsumoMinimoDiarioKg : ℚ := 3
/-- Constant `DEPREDADOR_CONSUMO_OPTIMO_DIARIO_KG`. -/
def depredadorConsumoOptimoDiarioKg : ℚ := 5
/-- Constant `PROBABILIDAD_ENFERMAR`. -/
def probabilidadEnfermar : ℚ := 1 / 1000
/-- Constant `PROBABILIDAD_NACER_MACHO`. -/
def probabilidadNacerMacho : ℚ := 1 / 2

/-- Constants `CONEJO_EDAD_MAXIMA_DIAS` and `CABRA_EDAD_MAXIMA_DIAS`. -/
def edadMaximaDias : Especie → ℕ
  | Especie.Conejo => 1825
  | Especie.Cabra => 5475

/-- Constants `CONEJO_EDAD_REPRODUCTIVA_DIAS` and `CABRA_EDAD_REPRODUCTIVA_DIAS`. -/
def edadReproductivaDias : Especie → ℕ
  | Especie.Conejo => 100
  | Especie.Cabra => 300

/-- Constants `CONEJO_EDAD_SACRIFICIO_DIAS` and `CABRA_EDAD_SACRIFICIO_DIAS`. -/
def edadSacrificioDias : Especie → ℕ
  | Especie.Conejo => 150
  | Especie.Cabra => 250

/-- Constants `CONEJO_TASA_REPRODUCCION_DIARIA` and `CABRA_TASA_REPRODUCCION_DIARIA`. -/
def tasaReproduccionDiaria : Especie → ℚ
  | Especie.Conejo => 5 / 100
  | Especie.Cabra => 1 / 100

/-- Constants `CONEJO_CRIAS_POR_PARTO` and `CABRA_CRIAS_POR_PARTO` (inclusive range). -/
def criasPorParto : Especie → ℕ × ℕ
  | Especie.Conejo => (3, 6)
  | Especie.Cabra => (1, 2)

/-- The two random-access paths of the Rust code, as explicit streams:
`flt`/`nat` model draws made through the `ThreadRng` handle
(`gen_bool` consumes from `flt`, `gen_range` and `choose` from `nat`),
`amb` models the global `rand::random::<f64>()` calls in `envejecer`.
`flt` and `amb` values are uniform draws from `[0,1)`. -/
structure RandState where
  flt : ℕ → ℚ
  nat : ℕ → ℕ
  amb : ℕ → ℚ
  fi : ℕ
  ni : ℕ
  ai : ℕ

/-- Model of `rng.gen_bool(p)`: true iff the next float draw is below `p`. -/
def genBool (p : ℚ) (r : RandState) : Bool × RandState :=
  (decide (r.flt r.fi < p), { r with fi := r.fi + 1 })

/-- Model of `rng.gen_range(lo..=hi)`: uniform integer in the inclusive range. -/
def genRange (lo hi : ℕ) (r : RandState) : ℕ × RandState :=
  (lo + r.nat r.ni % (hi + 1 - lo), { r with ni := r.ni + 1 })

/-- Model of `slice.choose(rng)` on a slice of length `len`: uniform index below `len`. -/
def chooseIdx (len : ℕ) (r : RandState) : ℕ × RandState :=
  (r.nat r.ni % len, { r with ni := r.ni + 1 })

/-- Model of `rand::random::<f64>()`: a draw from the ambient (non-threaded) stream. -/
def ambDraw (r : RandState) : ℚ × RandState :=
  (r.amb r.ai, { r with ai := r.ai + 1 })

/-- One prey individual.  The Rust code has two structs `Conejo` and
`Cabra` with identical fields behind the trait `Presa`; the embedding is
the equivalent tagged record, the `especie` tag selecting the species
constants.  The per-entity `crecimiento` closure is the `crec` parameter
of the operations (identical for all entities of a species). -/
structure Presa where
  id : ℕ
  especie : Especie
  sexo : Sexo
  edadDias : ℕ
  pesoKg : ℚ
  vivo : Bool
deriving DecidableEq, Repr

/-- Constructors `Conejo::new` and `Cabra::new`: sex from `gen_bool(PROBABILIDAD_NACER_MACHO)`,
age 0, weight `crecimiento(0)`, alive. -/
def Presa.nuevo (crec : Especie → ℕ → ℚ) (esp : Especie) (id : ℕ)
    (r : RandState) : Presa × RandState :=
  let br := genBool probabilidadNacerMacho r
  ({ id := id, especie := esp,
     sexo := if br.1 then Sexo.Macho else Sexo.Hembra,
     edadDias := 0, pesoKg := crec esp 0, vivo := true }, br.2)

/-- Method `envejecer` (`Presa` trait impl): age `+= 1`, weight recomputed at the
new age, then death by old age (`edad > max`) or, short-circuiting as in
`||`, by a `rand::random::<f64>() < PROBABILIDAD_ENFERMAR` disease draw
from the ambient stream. -/
def Presa.envejecer (crec : Especie → ℕ → ℚ) (p : Presa)
    (r : RandState) : Presa × RandState :=
  let edad := p.edadDias + 1
  let peso := crec p.especie edad
  if edadMaximaDias p.especie < edad then
    ({ p with edadDias := edad, pesoKg := peso, vivo := false }, r)
  else
    let ur := ambDraw r
    if ur.1 < probabilidadEnfermar then
      ({ p with edadDias := edad, pesoKg := peso, vivo := false }, ur.2)
    else
      ({ p with edadDias := edad, pesoKg := peso }, ur.2)

/-- The `for _ in 0..cantidad` loop of `reproducirse` (also the shape of
the initial-population loops in `Simulacion::new`): create `n` newborns
of species `esp`, each taking the current `next_id` which is then
incremented. -/
def crearCrias (crec : Especie → ℕ → ℚ) (esp : Especie) :
    ℕ → ℕ → RandState → List Presa × ℕ × RandState
  | 0, nid, r => ([], nid, r)
  | n + 1, nid, r =>
    let cr := Presa.nuevo crec esp nid r
    let rest := crearCrias crec esp n (nid + 1) cr.2
    (cr.1 :: rest.1, rest.2)

/-- Method `reproducirse` (`Presa` trait impl): if female, of reproductive age
and the `gen_bool(tasa)` draw succeeds (the draw happens only when the
first two conjuncts hold, as `&&` short-circuits), a litter of
`gen_range(lo..=hi)` newborns is produced; otherwise no newborns. -/
def Presa.reproducirse (crec : Especie → ℕ → ℚ) (p : Presa)
    (r : RandState) (nextId : ℕ) : List Presa × ℕ × RandState :=
  if p.sexo = Sexo.Hembra ∧ edadReproductivaDias p.especie ≤ p.edadDias then
    let br := genBool (tasaReproduccionDiaria p.especie) r
    if br.1 then
      let rango := criasPorParto p.especie
      let cr := genRange rango.1 rango.2 br.2
      crearCrias crec p.especie cr.1 nextId cr.2
    else ([], nextId, br.2)
  else ([], nextId, r)

/-- The pointwise relation between an aged population and the population
it came from: identity, species and sex are kept, age goes up by one. -/
def Envejecida (q p : Presa) : Prop :=
  q.id = p.id ∧ q.especie = p.especie ∧ q.sexo = p.sexo ∧
    q.edadDias = p.edadDias + 1

/-- Rust `struct Depredador`. -/
structure Depredador where
  reservaComidaKg : ℚ
  vivo : Bool
deriving DecidableEq, Repr

/-- Constructor `Depredador::new`. -/
def Depredador.nuevo (reservaInicial : ℚ) : Depredador :=
  { reservaComidaKg := reservaInicial, vivo := true }

/-- Method `Depredador::consumir_reserva`: tiered daily consumption; starvation
(reserve below the minimum) sets `vivo := false` without subtracting. -/
def Depredador.consumirReserva (d : Depredador) : Depredador :=
  if depredadorConsumoOptimoDiarioKg ≤ d.reservaComidaKg then
    { d with reservaComidaKg := d.reservaComidaKg - depredadorConsumoOptimoDiarioKg }
  else if depredadorConsumoMinimoDiarioKg ≤ d.reservaComidaKg then
    { d with reservaComidaKg := d.reservaComidaKg - depredadorConsumoMinimoDiarioKg }
  else
    { d with vivo := false }

/-- The eligibility filter of `cazar`: slaughter age reached and alive
(`p.edad() >= edad_sacrificio && p.esta_viva()`), applied to the
enumerated population. -/
def presasCazables (presas : List Presa) : List (ℕ × Presa) :=
  presas.enum.filter fun ip =>
    decide (edadSacrificioDias ip.2.especie ≤ ip.2.edadDias) && ip.2.vivo

/-- Step 2 of `cazar`: `presas_cazables.iter().map(peso).fold(0.0, f64::max)`. -/
def pesoMaximoCazables (presas : List Presa) : ℚ :=
  ((presasCazables presas).map fun ip => ip.2.pesoKg).foldl max 0

/-- Step 3 of `cazar` before the final `.map(|(i, _)| i)`: the huntable
prey whose weight is within the `0.01` float tolerance of `pesoMaximo`. -/
def empatadas (presas : List Presa) (pesoMaximo : ℚ) : List (ℕ × Presa) :=
  (presasCazables presas).filter fun ip =>
    decide (pesoMaximo - 1 / 100 ≤ ip.2.pesoKg)

/-- Method `Depredador::cazar`: filter to huntable prey; if none, return; else
take the maximum weight (`fold(0.0, f64::max)`), keep the indices whose
weight is within the `0.01` tolerance of it, `choose` one uniformly,
remove it from the population (`Vec::remove`) and add its weight to the
reserve.  `choose` on an empty slice returns `None` (no draw, nothing
removed); `Vec::remove`'s in-bounds lookup is modelled by `presas[i]?`,
whose `none` branch is unreachable for indices produced by `enum`. -/
def Depredador.cazar (d : Depredador) (presas : List Presa)
    (r : RandState) : Depredador × List Presa × RandState :=
  if (presasCazables presas).isEmpty then (d, presas, r)
  else
    let mejores := (empatadas presas (pesoMaximoCazables presas)).map Prod.fst
    if mejores.isEmpty then (d, presas, r)
    else
      let kr := chooseIdx mejores.length r
      let indice := mejores.getD kr.1 0
      match presas[indice]? with
      | some presa =>
        ({ d with reservaComidaKg := d.reservaComidaKg + presa.pesoKg },
         presas.eraseIdx indice, kr.2)
      | none => (d, presas, kr.2)

instance : Inhabited Presa :=
  ⟨{ id := 0, especie := Especie.Conejo, sexo := Sexo.Macho,
     edadDias := 0, pesoKg := 0, vivo := true }⟩

/-- The `(index, prey)` pair that a non-trivial `cazar` call selects: the
`choose`-draw picks position `nat ni % length` within the tie set. -/
def presaElegida (presas : List Presa) (r : RandState) : ℕ × Presa :=
  (empatadas presas (pesoMaximoCazables presas)).getD
    (r.nat r.ni % (empatadas presas (pesoMaximoCazables presas)).length)
    (0, default)

/-- Rust `struct Simulacion`. -/
structure Simulacion where
  dia : ℕ
  presas : List Presa
  depredador : Depredador
  nextId : ℕ
deriving DecidableEq, Repr

/-- Constructor `Simulacion::new`: 60 rabbits with ids `0..59`, then 25 goats with
ids `60..84`, predator with the initial reserve, day 0, `next_id = 85`. -/
def Simulacion.nueva (crec : Especie → ℕ → ℚ) (r : RandState) :
    Simulacion × RandState :=
  let conejos := crearCrias crec Especie.Conejo nConejosInicial 0 r
  let cabras := crearCrias crec Especie.Cabra nCabrasInicial conejos.2.1 conejos.2.2
  ({ dia := 0, presas := conejos.1 ++ cabras.1,
     depredador := Depredador.nuevo depredadorReservaInicialKg,
     nextId := cabras.2.1 }, cabras.2.2)

/-- The FASE 2 loop of `avanzar_dia`: each prey in order ages one day and
then attempts reproduction (on its aged state), newborns accumulating in
order into the pending buffer; returns the aged population, the buffered
newborns, the final `next_id` and rand state. -/
def faseEnvejecer (crec : Especie → ℕ → ℚ) :
    List Presa → ℕ → RandState → List Presa × List Presa × ℕ × RandState
  | [], nid, r => ([], [], nid, r)
  | p :: ps, nid, r =>
    let er := Presa.envejecer crec p r
    let rr := Presa.reproducirse crec er.1 er.2 nid
    let rest := faseEnvejecer crec ps rr.2.1 rr.2.2
    (er.1 :: rest.1, rr.1 ++ rest.2.1, rest.2.2.1, rest.2.2.2)

/-- FASE 1 of `avanzar_dia`: the predator consumes its reserve and, if
it is still alive and prey exist, hunts exactly once. -/
def faseDepredador (s : Simulacion) (r : RandState) :
    Depredador × List Presa × RandState :=
  let d1 := s.depredador.consumirReserva
  if d1.vivo ∧ ¬s.presas.isEmpty then d1.cazar s.presas r
  else (d1, s.presas, r)

/-- Method `Simulacion::avanzar_dia`: return unchanged if the predator is dead;
otherwise increment the day, have the predator consume its reserve, hunt
once if it is still alive and prey exist (FASE 1), age and reproduce every
remaining prey (FASE 2), append the newborns and drop the dead
(`retain`, FASE 3). -/
def Simulacion.avanzarDia (crec : Especie → ℕ → ℚ) (s : Simulacion)
    (r : RandState) : Simulacion × RandState :=
  if s.depredador.vivo then
    let paso1 := faseDepredador s r
    let fase2 := faseEnvejecer crec paso1.2.1 s.nextId paso1.2.2
    ({ dia := s.dia + 1,
       presas := (fase2.1 ++ fase2.2.1).filter fun p => p.vivo,
       depredador := paso1.1,
       nextId := fase2.2.2.1 }, fase2.2.2.2)
  else (s, r)

/-- Method `contar_especies`: living counts per species (the population holds
only living prey between days; the code counts all entries). -/
def Simulacion.contarEspecies (s : Simulacion) : ℕ × ℕ :=
  ((s.presas.filter fun p => p.especie = Especie.Conejo).length,
   (s.presas.filter fun p => p.especie = Especie.Cabra).length)

/-- The id discipline maintained by the simulation: every live id is
below the counter, and live ids are pairwise distinct. -/
def IdsValidos (s : Simulacion) : Prop :=
  (∀ p ∈ s.presas, p.id < s.nextId) ∧ (s.presas.map Presa.id).Nodup

/-- Replace the ambient (`rand::random`) stream of a rand state. -/
def conAmbiente (r : RandState) (a : ℕ → ℚ) : RandState :=
  { r with amb := a }

/-- Replace the two threaded (`ThreadRng` handle) streams of a rand state. -/
def conManejador (r : RandState) (f : ℕ → ℚ) (g : ℕ → ℕ) : RandState :=
  { r with flt := f, nat := g }

/-! ### Concrete instances used to exercise the theorems -/

/-- A concrete stand-in for the growth closure: positive and monotone,
used only to instantiate theorems at concrete inputs. -/
def crecEjemplo : Especie → ℕ → ℚ := fun _ n => 1 + (n : ℚ) / 100

/-- A fully explicit random state built from three constant streams. -/
def randEjemplo (q : ℚ) (n : ℕ) (a : ℚ) : RandState :=
  { flt := fun _ => q, nat := fun _ => n, amb := fun _ => a,
    fi := 0, ni := 0, ai := 0 }

/-- A slaughter-eligible male rabbit (age 150, alive). -/
def conejoCazable : Presa :=
  { id := 0, especie := Especie.Conejo, sexo := Sexo.Macho,
    edadDias := 150, pesoKg := 4, vivo := true }

/-- A fertile female rabbit (age 200, alive). -/
def conejaFertil : Presa :=
  { id := 7, especie := Especie.Conejo, sexo := Sexo.Hembra,
    edadDias := 200, pesoKg := 4, vivo := true }

/-- A young male rabbit (age 10, alive), not huntable. -/
def conejoJoven : Presa :=
  { id := 0, especie := Especie.Conejo, sexo := Sexo.Macho,
    edadDias := 10, pesoKg := 1, vivo := true }

/-- A dead predator with an empty reserve. -/
def depredadorMuerto : Depredador := { reservaComidaKg := 0, vivo := false }

/-- A small running simulation state: one huntable rabbit, live predator. -/
def simEjemplo : Simulacion :=
  { dia := 3, presas := [conejoCazable],
    depredador := { reservaComidaKg := 10, vivo := true }, nextId := 1 }

/-- A terminal simulation state (predator already dead). -/
def simTerminal : Simulacion :=
  { dia := 5, presas := [conejoCazable],
    depredador := { reservaComidaKg := 2, vivo := false }, nextId := 9 }

/-- A running state about to starve: reserve below the minimum. -/
def simHambruna : Simulacion :=
  { dia := 4, presas := [conejoCazable],
    depredador := { reservaComidaKg := 2, vivo := true }, nextId := 8 }

/-- A one-young-rabbit state used to separate the two random streams. -/
def simJoven : Simulacion :=
  { dia := 0, presas := [conejoJoven],
    depredador := { reservaComidaKg := 900, vivo := true }, nextId := 1 }

/-- Rand state whose ambient stream triggers the disease draw
(`1/2000 < 1/1000`); threaded streams identical to `randSana`. -/
def randEnferma : RandState := randEjemplo (1 / 2) 0 (1 / 2000)

/-- Rand state whose ambient stream never triggers the disease draw;
threaded streams identical to `randEnferma`. -/
def randSana : RandState := randEjemplo (1 / 2) 0 (1 / 2)

/-- Function `crear_funcion_gompertz` over `ℝ` (the code computes in `f64`):
`peso_max * exp(-exp(-tasa * (t - inflexion)))`. -/
noncomputable def crearFuncionGompertz
    (pesoMax tasaCrecimiento puntoInflexion : ℝ) : ℝ → ℝ :=
  fun t =>
    let exponenteInterno := -tasaCrecimiento * (t - puntoInflexion)
    let exponenteExterno := -Real.exp exponenteInterno
    pesoMax * Real.exp exponenteExterno

/-! ### Helper lemmas -/

theorem le_foldl_max : ∀ (ws : List ℚ) (a : ℚ), a ≤ ws.foldl max a := by
  intro ws
  induction ws with
  | nil => intro a; simp
  | cons w ws ih =>
    intro a
    exact le_trans (le_max_left a w) (ih (max a w))

theorem mem_le_foldl_max :
    ∀ (ws : List ℚ) (a w : ℚ), w ∈ ws → w ≤ ws.foldl max a := by
  intro ws
  induction ws with
  | nil => intro a w h; cases h
  | cons v ws ih =>
    intro a w h
    rcases List.mem_cons.mp h with h | h
    · subst h
      exact le_trans (le_max_right a w) (le_foldl_max ws (max a w))
    · exact ih (max a v) w h

theorem foldl_max_mem :
    ∀ (ws : List ℚ) (a : ℚ), ws.foldl max a = a ∨ ws.foldl max a ∈ ws := by
  intro ws
  induction ws with
  | nil => intro a; left; rfl
  | cons w ws ih =>
    intro a
    rcases ih (max a w) with h | h
    · rcases max_choice a w with hm | hm
      · left; rw [List.foldl_cons, h, hm]
      · right; rw [List.foldl_cons, h, hm]; exact List.mem_cons_self w ws
    · right
      exact List.mem_cons_of_mem w (by rw [List.foldl_cons]; exact h)

/-- Field-level description of `envejecer`: identity, species and sex are
untouched, age goes up by one, weight is the growth function at the new
age, and the alive flag can only go from `true` to `false`. -/
theorem envejecer_campos (crec : Especie → ℕ → ℚ) (p : Presa) (r : RandState) :
    (p.envejecer crec r).1.id = p.id ∧
    (p.envejecer crec r).1.especie = p.especie ∧
    (p.envejecer crec r).1.sexo = p.sexo ∧
    (p.envejecer crec r).1.edadDias = p.edadDias + 1 ∧
    (p.envejecer crec r).1.pesoKg = crec p.especie (p.edadDias + 1) ∧
    ((p.envejecer crec r).1.vivo = true → p.vivo = true) := by
  unfold Presa.envejecer
  dsimp only
  split
  · simp
  · dsimp only [ambDraw]
    split <;> simp

/-- The newborn-creation loop: `n` newborns of the given species, ages 0,
alive, ids `nid, nid+1, …, nid+n-1`, counter left at `nid + n`. -/
theorem crearCrias_spec (crec : Especie → ℕ → ℚ) (esp : Especie) :
    ∀ (n nid : ℕ) (r : RandState),
      (crearCrias crec esp n nid r).1.length = n ∧
      (crearCrias crec esp n nid r).2.1 = nid + n ∧
      (crearCrias crec esp n nid r).1.map Presa.id = List.range' nid n ∧
      ∀ c ∈ (crearCrias crec esp n nid r).1,
        c.especie = esp ∧ c.edadDias = 0 ∧ c.vivo = true ∧ c.pesoKg = crec esp 0 := by
  intro n
  induction n with
  | zero => intro nid r; simp [crearCrias]
  | succ n ih =>
    intro nid r
    obtain ⟨hlen, hnid, hids, hall⟩ :=
      ih (nid + 1) (Presa.nuevo crec esp nid r).2
    refine ⟨?_, ?_, ?_, ?_⟩
    · simp [crearCrias, hlen]
    · simp only [crearCrias]
      rw [hnid]; omega
    · simp only [crearCrias, List.map_cons, hids, List.range'_succ]
      simp [Presa.nuevo]
    · intro c hc
      simp only [crearCrias, List.mem_cons] at hc
      rcases hc with hc | hc
      · subst hc
        refine ⟨rfl, rfl, rfl, rfl⟩
      · exact hall c hc

/-- Per-species sanity of the litter-size range. -/
theorem criasPorParto_rango (esp : Especie) :
    1 ≤ (criasPorParto esp).1 ∧ (criasPorParto esp).1 ≤ (criasPorParto esp).2 := by
  cases esp <;> simp [criasPorParto]

/-- Draw `genRange lo hi` lands in the inclusive range whenever `lo ≤ hi`. -/
theorem genRange_mem (lo hi : ℕ) (r : RandState) (h : lo ≤ hi) :
    lo ≤ (genRange lo hi r).1 ∧ (genRange lo hi r).1 ≤ hi := by
  unfold genRange
  dsimp only
  have hpos : 0 < hi + 1 - lo := by omega
  have := Nat.mod_lt (r.nat r.ni) hpos
  omega

/-- Full contract of `reproducirse`: the counter advances by exactly the
litter size, newborn ids are the consecutive block starting at the old
counter, newborns share the parent's species, start at age 0 alive, and
a non-empty litter forces the three eligibility conditions (female,
reproductive age, successful probability draw) together with the litter
size lying in the species' inclusive range. -/
theorem reproducirse_spec (crec : Especie → ℕ → ℚ) (p : Presa)
    (r : RandState) (nid : ℕ) :
    (p.reproducirse crec r nid).2.1 = nid + (p.reproducirse crec r nid).1.length ∧
    (p.reproducirse crec r nid).1.map Presa.id =
      List.range' nid (p.reproducirse crec r nid).1.length ∧
    (∀ c ∈ (p.reproducirse crec r nid).1,
      c.especie = p.especie ∧ c.edadDias = 0 ∧ c.vivo = true) ∧
    ((p.reproducirse crec r nid).1 ≠ [] →
      p.sexo = Sexo.Hembra ∧
      edadReproductivaDias p.especie ≤ p.edadDias ∧
      r.flt r.fi < tasaReproduccionDiaria p.especie ∧
      (criasPorParto p.especie).1 ≤ (p.reproducirse crec r nid).1.length ∧
      (p.reproducirse crec r nid).1.length ≤ (criasPorParto p.especie).2) := by
  unfold Presa.reproducirse
  by_cases helig : p.sexo = Sexo.Hembra ∧ edadReproductivaDias p.especie ≤ p.edadDias
  · rw [if_pos helig]
    by_cases hdraw : r.flt r.fi < tasaReproduccionDiaria p.especie
    · have hb : (genBool (tasaReproduccionDiaria p.especie) r).1 = true := by
        simp [genBool, hdraw]
      simp only [hb, if_true]
      obtain ⟨hlen, hnid, hids, hall⟩ :=
        crearCrias_spec crec p.especie
          (genRange (criasPorParto p.especie).1 (criasPorParto p.especie).2
            (genBool (tasaReproduccionDiaria p.especie) r).2).1
          nid
          (genRange (criasPorParto p.especie).1 (criasPorParto p.especie).2
            (genBool (tasaReproduccionDiaria p.especie) r).2).2
      refine ⟨by rw [hlen]; exact hnid, by rw [hlen]; exact hids, ?_, ?_⟩
      · intro c hc
        exact ⟨(hall c hc).1, (hall c hc).2.1, (hall c hc).2.2.1⟩
      · intro _
        have hr := genRange_mem (criasPorParto p.especie).1 (criasPorParto p.especie).2
          (genBool (tasaReproduccionDiaria p.especie) r).2 (criasPorParto_rango p.especie).2
        rw [hlen]
        exact ⟨helig.1, helig.2, hdraw, hr.1, hr.2⟩
    · have hb : (genBool (tasaReproduccionDiaria p.especie) r).1 = false := by
        simp [genBool, hdraw]
      simp only [hb, if_false]
      simp
  · rw [if_neg helig]
    refine ⟨by simp, by simp, by simp, ?_⟩
    intro h
    exact absurd rfl h

theorem Envejecida_of_envejecer (crec : Especie → ℕ → ℚ) (p : Presa)
    (r : RandState) : Envejecida (p.envejecer crec r).1 p := by
  obtain ⟨h1, h2, h3, h4, _, _⟩ := envejecer_campos crec p r
  exact ⟨h1, h2, h3, h4⟩

theorem Forall₂_Envejecida_map_id :
    ∀ {l₁ l₂ : List Presa}, List.Forall₂ Envejecida l₁ l₂ →
      l₁.map Presa.id = l₂.map Presa.id := by
  intro l₁ l₂ h
  induction h with
  | nil => rfl
  | cons hr _ ih => simp [hr.1, ih]

/-- Contract of the FASE 2 loop: the aged list is pointwise the aging of
the input list (each prey aged exactly once), the id counter advances by
exactly the number of newborns, the newborn ids form the consecutive
block starting at the old counter, and every newborn is alive at age 0. -/
theorem faseEnvejecer_spec (crec : Especie → ℕ → ℚ) :
    ∀ (ps : List Presa) (nid : ℕ) (r : RandState),
      List.Forall₂ Envejecida (faseEnvejecer crec ps nid r).1 ps ∧
      (faseEnvejecer crec ps nid r).2.2.1 =
        nid + (faseEnvejecer crec ps nid r).2.1.length ∧
      (faseEnvejecer crec ps nid r).2.1.map Presa.id =
        List.range' nid (faseEnvejecer crec ps nid r).2.1.length ∧
      ∀ c ∈ (faseEnvejecer crec ps nid r).2.1, c.edadDias = 0 ∧ c.vivo = true := by
  intro ps
  induction ps with
  | nil =>
    intro nid r
    refine ⟨List.Forall₂.nil, by simp [faseEnvejecer], by simp [faseEnvejecer], ?_⟩
    intro c hc
    simp [faseEnvejecer] at hc
  | cons p ps ih =>
    intro nid r
    obtain ⟨rn, ri, rall, _⟩ :=
      reproducirse_spec crec (p.envejecer crec r).1 (p.envejecer crec r).2 nid
    obtain ⟨hf, hn, hi, hc⟩ :=
      ih ((p.envejecer crec r).1.reproducirse crec (p.envejecer crec r).2 nid).2.1
         ((p.envejecer crec r).1.reproducirse crec (p.envejecer crec r).2 nid).2.2
    simp only [faseEnvejecer]
    refine ⟨List.Forall₂.cons (Envejecida_of_envejecer crec p r) hf, ?_, ?_, ?_⟩
    · rw [List.length_append, hn, rn]
      omega
    · rw [List.map_append, ri, hi, rn, List.range'_append_1, List.length_append]
      congr 1
      omega
    · intro c hmem
      rcases List.mem_append.mp hmem with h | h
      · exact ⟨(rall c h).2.1, (rall c h).2.2⟩
      · exact hc c h

/-- Hunting never changes the predator's alive flag. -/
theorem cazar_vivo (d : Depredador) (ps : List Presa) (r : RandState) :
    (d.cazar ps r).1.vivo = d.vivo := by
  show (Depredador.cazar d ps r).1.vivo = d.vivo
  unfold Depredador.cazar
  dsimp only
  split
  · rfl
  · split
    · rfl
    · split <;> rfl

/-- The post-hunt population is a sublist of the pre-hunt population
(nothing is added, at most one element removed). -/
theorem cazar_sublist (d : Depredador) (ps : List Presa) (r : RandState) :
    List.Sublist (d.cazar ps r).2.1 ps := by
  unfold Depredador.cazar
  dsimp only
  split
  · exact List.Sublist.refl ps
  · split
    · exact List.Sublist.refl ps
    · split
      · exact List.eraseIdx_sublist ps _
      · exact List.Sublist.refl ps

/-- With no huntable prey, `cazar` is the identity. -/
theorem cazar_sin_cazables (d : Depredador) (ps : List Presa) (r : RandState)
    (h : presasCazables ps = []) : d.cazar ps r = (d, ps, r) := by
  unfold Depredador.cazar
  rw [h]
  rfl

/-- Unpacking membership in the huntable filter: the pair is a real
position of the population, and the prey satisfies the two filter
conditions (slaughter age reached, alive). -/
theorem mem_presasCazables {ps : List Presa} {ip : ℕ × Presa}
    (h : ip ∈ presasCazables ps) :
    ps[ip.1]? = some ip.2 ∧
    edadSacrificioDias ip.2.especie ≤ ip.2.edadDias ∧ ip.2.vivo = true := by
  unfold presasCazables at h
  have hm := List.mem_filter.mp h
  have h1 := List.mem_enum_iff_getElem?.mp hm.1
  have h2 := hm.2
  simp only [Bool.and_eq_true, decide_eq_true_eq] at h2
  exact ⟨h1, h2.1, h2.2⟩

/-- Full contract of `cazar` on a population with huntable prey and
non-negative weights (every weight the program produces is a Gompertz
value, hence positive): `pesoMaximoCazables` is the greatest huntable
weight and is attained; the selected pair is one of the tie set
`empatadas` (the uniform `choose` picks position `nat ni % length`);
it is an actual position of the population; and the call removes exactly
that individual while crediting exactly its weight to the reserve. -/
theorem cazar_spec (d : Depredador) (ps : List Presa) (r : RandState)
    (hw : ∀ p ∈ ps, 0 ≤ p.pesoKg) (hne : presasCazables ps ≠ []) :
    (∀ ip ∈ presasCazables ps, ip.2.pesoKg ≤ pesoMaximoCazables ps) ∧
    (∃ ip ∈ presasCazables ps, ip.2.pesoKg = pesoMaximoCazables ps) ∧
    presaElegida ps r ∈ empatadas ps (pesoMaximoCazables ps) ∧
    ps[(presaElegida ps r).1]? = some (presaElegida ps r).2 ∧
    d.cazar ps r =
      ({ reservaComidaKg := d.reservaComidaKg + (presaElegida ps r).2.pesoKg,
         vivo := d.vivo },
       ps.eraseIdx (presaElegida ps r).1,
       { r with ni := r.ni + 1 }) := by
  have hub : ∀ ip ∈ presasCazables ps, ip.2.pesoKg ≤ pesoMaximoCazables ps := by
    intro ip hip
    exact mem_le_foldl_max _ 0 _ (List.mem_map_of_mem _ hip)
  have hat : ∃ ip ∈ presasCazables ps, ip.2.pesoKg = pesoMaximoCazables ps := by
    rcases foldl_max_mem ((presasCazables ps).map fun ip => ip.2.pesoKg) 0 with h0 | hmem
    · obtain ⟨ip0, hip0⟩ := List.exists_mem_of_ne_nil _ hne
      refine ⟨ip0, hip0, ?_⟩
      have h1 := hub ip0 hip0
      have h2 : 0 ≤ ip0.2.pesoKg :=
        hw _ (List.getElem?_mem (mem_presasCazables hip0).1)
      have h3 : pesoMaximoCazables ps = 0 := h0
      linarith
    · rcases List.mem_map.mp hmem with ⟨ip, hip, hpeso⟩
      exact ⟨ip, hip, hpeso⟩
  obtain ⟨ipM, hipM, hpesoM⟩ := hat
  have hempne : empatadas ps (pesoMaximoCazables ps) ≠ [] := by
    have : ipM ∈ empatadas ps (pesoMaximoCazables ps) := by
      refine List.mem_filter.mpr ⟨hipM, ?_⟩
      rw [decide_eq_true_eq, hpesoM]
      norm_num
    exact List.ne_nil_of_mem this
  have hlen : 0 < (empatadas ps (pesoMaximoCazables ps)).length :=
    List.length_pos.mpr hempne
  have hklt : r.nat r.ni % (empatadas ps (pesoMaximoCazables ps)).length <
      (empatadas ps (pesoMaximoCazables ps)).length :=
    Nat.mod_lt _ hlen
  have hsel : presaElegida ps r =
      (empatadas ps (pesoMaximoCazables ps)).get
        ⟨r.nat r.ni % (empatadas ps (pesoMaximoCazables ps)).length, hklt⟩ := by
    unfold presaElegida
    rw [List.getD_eq_getElem?_getD, List.getElem?_eq_getElem hklt]
    rfl
  have hmem : presaElegida ps r ∈ empatadas ps (pesoMaximoCazables ps) := by
    rw [hsel]
    exact List.get_mem _ _ _
  have hcaz : presaElegida ps r ∈ presasCazables ps :=
    List.mem_of_mem_filter hmem
  have hget := (mem_presasCazables hcaz).1
  refine ⟨hub, ⟨ipM, hipM, hpesoM⟩, hmem, hget, ?_⟩
  have h1 : (presasCazables ps).isEmpty = false := by
    rw [List.isEmpty_eq_false]
    exact hne
  have h2 : ((empatadas ps (pesoMaximoCazables ps)).map Prod.fst).isEmpty = false := by
    rw [List.isEmpty_eq_false]
    simp [hempne]
  have hidx : ((empatadas ps (pesoMaximoCazables ps)).map Prod.fst).getD
      (r.nat r.ni % (empatadas ps (pesoMaximoCazables ps)).length) 0 =
      (presaElegida ps r).1 := by
    rw [List.getD_eq_getElem?_getD, List.getElem?_map,
      List.getElem?_eq_getElem hklt, hsel]
    rfl
  simp only [Depredador.cazar, h1, h2, Bool.false_eq_true, if_false, chooseIdx,
    List.length_map, hidx, hget]

theorem faseDepredador_vivo (s : Simulacion) (r : RandState) :
    (faseDepredador s r).1.vivo = s.depredador.consumirReserva.vivo := by
  unfold faseDepredador
  dsimp only
  split
  · exact cazar_vivo _ _ _
  · rfl

theorem faseDepredador_sublist (s : Simulacion) (r : RandState) :
    List.Sublist (faseDepredador s r).2.1 s.presas := by
  unfold faseDepredador
  dsimp only
  split
  · exact cazar_sublist _ _ _
  · exact List.Sublist.refl _

/-- `avanzar_dia` with a dead predator returns the state unchanged. -/
theorem avanzarDia_muerto (crec : Especie → ℕ → ℚ) (s : Simulacion)
    (r : RandState) (h : s.depredador.vivo = false) :
    Simulacion.avanzarDia crec s r = (s, r) := by
  simp [Simulacion.avanzarDia, h]

/-- `avanzar_dia` with a live predator is exactly the FASE 1/2/3 composite. -/
theorem avanzarDia_vivo (crec : Especie → ℕ → ℚ) (s : Simulacion)
    (r : RandState) (h : s.depredador.vivo = true) :
    Simulacion.avanzarDia crec s r =
      ({ dia := s.dia + 1,
         presas :=
           ((faseEnvejecer crec (faseDepredador s r).2.1 s.nextId
               (faseDepredador s r).2.2).1 ++
            (faseEnvejecer crec (faseDepredador s r).2.1 s.nextId
               (faseDepredador s r).2.2).2.1).filter fun p => p.vivo,
         depredador := (faseDepredador s r).1,
         nextId := (faseEnvejecer crec (faseDepredador s r).2.1 s.nextId
             (faseDepredador s r).2.2).2.2.1 },
       (faseEnvejecer crec (faseDepredador s r).2.1 s.nextId
           (faseDepredador s r).2.2).2.2.2) := by
  simp only [Simulacion.avanzarDia, h, if_true]

theorem consumirReserva_vivo_false (d : Depredador)
    (h : d.consumirReserva.vivo = false) :
    d.vivo = false ∨ d.reservaComidaKg < 3 := by
  unfold Depredador.consumirReserva at h
  by_cases h5 : depredadorConsumoOptimoDiarioKg ≤ d.reservaComidaKg
  · rw [if_pos h5] at h
    exact Or.inl h
  · rw [if_neg h5] at h
    by_cases h3 : depredadorConsumoMinimoDiarioKg ≤ d.reservaComidaKg
    · rw [if_pos h3] at h
      exact Or.inl h
    · right
      unfold depredadorConsumoMinimoDiarioKg at h3
      linarith [not_le.mp h3]

/-- The next-id counter never decreases across a day advance. -/
theorem avanzarDia_nextId_mono (crec : Especie → ℕ → ℚ) (s : Simulacion)
    (r : RandState) : s.nextId ≤ (Simulacion.avanzarDia crec s r).1.nextId := by
  by_cases h : s.depredador.vivo = true
  · rw [avanzarDia_vivo crec s r h]
    obtain ⟨_, hn, _, _⟩ :=
      faseEnvejecer_spec crec (faseDepredador s r).2.1 s.nextId (faseDepredador s r).2.2
    dsimp only
    rw [hn]
    exact Nat.le_add_right _ _
  · rw [avanzarDia_muerto crec s r (by simpa using h)]

/-- Every prey surviving a day advance either keeps an id that was
already present, or carries a fresh id from the block issued this day. -/
theorem avanzarDia_ids_nuevos (crec : Especie → ℕ → ℚ) (s : Simulacion)
    (r : RandState) :
    ∀ p ∈ (Simulacion.avanzarDia crec s r).1.presas,
      p.id ∈ s.presas.map Presa.id ∨
      (s.nextId ≤ p.id ∧ p.id < (Simulacion.avanzarDia crec s r).1.nextId) := by
  by_cases h : s.depredador.vivo = true
  · rw [avanzarDia_vivo crec s r h]
    obtain ⟨hf, hn, hi, _⟩ :=
      faseEnvejecer_spec crec (faseDepredador s r).2.1 s.nextId (faseDepredador s r).2.2
    intro p hp
    dsimp only at hp ⊢
    have hp2 := (List.mem_filter.mp hp).1
    rcases List.mem_append.mp hp2 with hma | hmc
    · left
      have : p.id ∈ ((faseEnvejecer crec (faseDepredador s r).2.1 s.nextId
          (faseDepredador s r).2.2).1.map Presa.id) := List.mem_map_of_mem _ hma
      rw [Forall₂_Envejecida_map_id hf] at this
      exact (List.Sublist.map Presa.id (faseDepredador_sublist s r)).subset this
    · right
      have : p.id ∈ ((faseEnvejecer crec (faseDepredador s r).2.1 s.nextId
          (faseDepredador s r).2.2).2.1.map Presa.id) := List.mem_map_of_mem _ hmc
      rw [hi] at this
      have hb := List.mem_range'_1.mp this
      rw [hn]
      omega
  · rw [avanzarDia_muerto crec s r (by simpa using h)]
    intro p hp
    left
    exact List.mem_map_of_mem _ hp

/-- A day advance preserves the id discipline. -/
theorem idsValidos_preserva (crec : Especie → ℕ → ℚ) (s : Simulacion)
    (r : RandState) (hs : IdsValidos s) :
    IdsValidos (Simulacion.avanzarDia crec s r).1 := by
  by_cases h : s.depredador.vivo = true
  · rw [avanzarDia_vivo crec s r h]
    obtain ⟨hf, hn, hi, _⟩ :=
      faseEnvejecer_spec crec (faseDepredador s r).2.1 s.nextId (faseDepredador s r).2.2
    have hids := Forall₂_Envejecida_map_id hf
    have hsub2 : List.Sublist ((faseDepredador s r).2.1.map Presa.id)
        (s.presas.map Presa.id) :=
      List.Sublist.map Presa.id (faseDepredador_sublist s r)
    constructor
    · intro p hp
      dsimp only at hp ⊢
      have hp2 := (List.mem_filter.mp hp).1
      rcases List.mem_append.mp hp2 with hma | hmc
      · have : p.id ∈ ((faseEnvejecer crec (faseDepredador s r).2.1 s.nextId
            (faseDepredador s r).2.2).1.map Presa.id) := List.mem_map_of_mem _ hma
        rw [hids] at this
        have hmem := hsub2.subset this
        rcases List.mem_map.mp hmem with ⟨q, hq, hqid⟩
        have := hs.1 q hq
        rw [hn]
        omega
      · have : p.id ∈ ((faseEnvejecer crec (faseDepredador s r).2.1 s.nextId
            (faseDepredador s r).2.2).2.1.map Presa.id) := List.mem_map_of_mem _ hmc
        rw [hi] at this
        have hb := List.mem_range'_1.mp this
        rw [hn]
        omega
    · dsimp only
      have hnodup :
          (((faseEnvejecer crec (faseDepredador s r).2.1 s.nextId
              (faseDepredador s r).2.2).1 ++
            (faseEnvejecer crec (faseDepredador s r).2.1 s.nextId
              (faseDepredador s r).2.2).2.1).map Presa.id).Nodup := by
        rw [List.map_append, hids, hi]
        refine List.Nodup.append (List.Nodup.sublist hsub2 hs.2)
          (List.nodup_range' _ _) ?_
        intro a ha hb
        rcases List.mem_map.mp ha with ⟨q, hq, hqid⟩
        have h1 := hs.1 q ((faseDepredador_sublist s r).subset hq)
        have h2 := (List.mem_range'_1.mp hb).1
        omega
      exact List.Nodup.sublist
        (List.Sublist.map Presa.id (List.filter_sublist _)) hnodup
  · rw [avanzarDia_muerto crec s r (by simpa using h)]
    exact hs

/-- The initial state has ids `0..84`, counter 85, hence valid ids. -/
theorem idsValidos_nueva (crec : Especie → ℕ → ℚ) (r : RandState) :
    IdsValidos (Simulacion.nueva crec r).1 := by
  obtain ⟨hl1, hn1, hi1, _⟩ :=
    crearCrias_spec crec Especie.Conejo nConejosInicial 0 r
  obtain ⟨hl2, hn2, hi2, _⟩ :=
    crearCrias_spec crec Especie.Cabra nCabrasInicial
      (crearCrias crec Especie.Conejo nConejosInicial 0 r).2.1
      (crearCrias crec Especie.Conejo nConejosInicial 0 r).2.2
  have hmap : ((Simulacion.nueva crec r).1.presas.map Presa.id) =
      List.range' 0 (nConejosInicial + nCabrasInicial) := by
    show (((crearCrias crec Especie.Conejo nConejosInicial 0 r).1 ++
      (crearCrias crec Especie.Cabra nCabrasInicial
        (crearCrias crec Especie.Conejo nConejosInicial 0 r).2.1
        (crearCrias crec Especie.Conejo nConejosInicial 0 r).2.2).1).map Presa.id) = _
    rw [List.map_append, hi1, hi2, hn1, List.range'_append_1,
      Nat.add_comm nCabrasInicial nConejosInicial]
  have hnid : (Simulacion.nueva crec r).1.nextId =
      nConejosInicial + nCabrasInicial := by
    show (crearCrias crec Especie.Cabra nCabrasInicial
      (crearCrias crec Especie.Conejo nConejosInicial 0 r).2.1
      (crearCrias crec Especie.Conejo nConejosInicial 0 r).2.2).2.1 = _
    rw [hn2, hn1]
    omega
  constructor
  · intro p hp
    have : p.id ∈ ((Simulacion.nueva crec r).1.presas.map Presa.id) :=
      List.mem_map_of_mem _ hp
    rw [hmap] at this
    have hb := List.mem_range'_1.mp this
    show p.id < (Simulacion.nueva crec r).1.nextId
    rw [hnid]
    omega
  · rw [hmap]
    exact List.nodup_range' _ _

theorem crearCrias_conAmbiente (crec : Especie → ℕ → ℚ) (esp : Especie) :
    ∀ (n nid : ℕ) (r : RandState) (a : ℕ → ℚ),
      crearCrias crec esp n nid (conAmbiente r a) =
        ((crearCrias crec esp n nid r).1,
         (crearCrias crec esp n nid r).2.1,
         conAmbiente (crearCrias crec esp n nid r).2.2 a) := by
  intro n
  induction n with
  | zero => intro nid r a; rfl
  | succ n ih =>
    intro nid r a
    have hx :
        ({ flt := r.flt, nat := r.nat, amb := a, fi := r.fi + 1,
           ni := r.ni, ai := r.ai } : RandState) =
          conAmbiente { r with fi := r.fi + 1 } a := rfl
    simp only [crearCrias, Presa.nuevo, genBool, conAmbiente]
    rw [hx, ih]
    rfl

/-- The litter operation never reads the ambient stream. -/
theorem reproducirse_conAmbiente (crec : Especie → ℕ → ℚ) (p : Presa)
    (r : RandState) (nid : ℕ) (a : ℕ → ℚ) :
    p.reproducirse crec (conAmbiente r a) nid =
      ((p.reproducirse crec r nid).1,
       (p.reproducirse crec r nid).2.1,
       conAmbiente (p.reproducirse crec r nid).2.2 a) := by
  have hx :
      ({ flt := r.flt, nat := r.nat, amb := a, fi := r.fi + 1,
         ni := r.ni + 1, ai := r.ai } : RandState) =
        conAmbiente { r with fi := r.fi + 1, ni := r.ni + 1 } a := rfl
  unfold Presa.reproducirse
  split
  · simp only [genBool, genRange, conAmbiente]
    split
    · rw [hx, crearCrias_conAmbiente]
      rfl
    · rfl
  · rfl

/-- Hunting never reads the ambient stream. -/
theorem cazar_conAmbiente (d : Depredador) (ps : List Presa)
    (r : RandState) (a : ℕ → ℚ) :
    d.cazar ps (conAmbiente r a) =
      ((d.cazar ps r).1,
       (d.cazar ps r).2.1,
       conAmbiente (d.cazar ps r).2.2 a) := by
  unfold Depredador.cazar
  dsimp only [chooseIdx, conAmbiente]
  split
  · rfl
  · split
    · rfl
    · split <;> rfl

/-- Aging never reads the threaded (handle) streams: its outcome is
driven entirely by the ambient `rand::random` stream. -/
theorem envejecer_conManejador (crec : Especie → ℕ → ℚ) (p : Presa)
    (r : RandState) (f : ℕ → ℚ) (g : ℕ → ℕ) :
    p.envejecer crec (conManejador r f g) =
      ((p.envejecer crec r).1, conManejador (p.envejecer crec r).2 f g) := by
  unfold Presa.envejecer
  dsimp only [ambDraw, conManejador]
  split
  · rfl
  · split <;> rfl

/-! ### Claim theorems -/

/-- C1: with the predator alive, `advance_day` executes exactly the fixed
sequence — day `+1`; the predator consumes its reserve; exactly one hunt
happens iff the predator survived consumption and prey exist (both inside
`faseDepredador`); every prey remaining after the hunt (the pre-hunt set
minus the culled individual, which is therefore never aged) is aged
exactly once and then attempts reproduction (`faseEnvejecer`; the
pointwise `Envejecida` relation certifies the single `+1` of age); the
newborns produced that day are appended afterwards, still at age 0 and
never given a reproduction attempt that day (they are not part of the
loop's input); finally dead entities are removed by the `filter`. -/
theorem avanzarDia_secuencia_por_fases (crec : Especie → ℕ → ℚ)
    (s : Simulacion) (r : RandState) (h : s.depredador.vivo = true) :
    Simulacion.avanzarDia crec s r =
      ({ dia := s.dia + 1,
         presas :=
           ((faseEnvejecer crec (faseDepredador s r).2.1 s.nextId
               (faseDepredador s r).2.2).1 ++
            (faseEnvejecer crec (faseDepredador s r).2.1 s.nextId
               (faseDepredador s r).2.2).2.1).filter fun p => p.vivo,
         depredador := (faseDepredador s r).1,
         nextId := (faseEnvejecer crec (faseDepredador s r).2.1 s.nextId
             (faseDepredador s r).2.2).2.2.1 },
       (faseEnvejecer crec (faseDepredador s r).2.1 s.nextId
           (faseDepredador s r).2.2).2.2.2) ∧
    List.Forall₂ Envejecida
      (faseEnvejecer crec (faseDepredador s r).2.1 s.nextId
          (faseDepredador s r).2.2).1
      (faseDepredador s r).2.1 ∧
    (∀ c ∈ (faseEnvejecer crec (faseDepredador s r).2.1 s.nextId
        (faseDepredador s r).2.2).2.1, c.edadDias = 0 ∧ c.vivo = true) :=
  ⟨avanzarDia_vivo crec s r h,
   (faseEnvejecer_spec crec (faseDepredador s r).2.1 s.nextId
      (faseDepredador s r).2.2).1,
   (faseEnvejecer_spec crec (faseDepredador s r).2.1 s.nextId
      (faseDepredador s r).2.2).2.2.2⟩

theorem avanzarDia_secuencia_por_fases_testigo :
    (Simulacion.avanzarDia crecEjemplo simEjemplo
        (randEjemplo (1 / 2) 0 (1 / 2))).1.dia = simEjemplo.dia + 1 :=
  congrArg (fun x => x.1.dia)
    (avanzarDia_secuencia_por_fases crecEjemplo simEjemplo
      (randEjemplo (1 / 2) 0 (1 / 2)) rfl).1

/-- C2: `cazar` filters to living prey at slaughter age; with no eligible
prey it changes nothing; otherwise `pesoMaximoCazables` is the greatest
eligible weight and is attained, the selected pair belongs to the
`empatadas` tie set (weights within `0.01` of the maximum; the uniform
`choose` draw picks position `nat ni % length`, so every member is
reachable), it is an actual position of the population, and the call
removes exactly that one individual while crediting exactly its weight
to the reserve.  Weights are assumed non-negative, as every weight the
program produces is a (positive) Gompertz value. -/
theorem cazar_contrato (d : Depredador) (ps : List Presa) (r : RandState)
    (hw : ∀ p ∈ ps, 0 ≤ p.pesoKg) :
    (presasCazables ps = [] → d.cazar ps r = (d, ps, r)) ∧
    (presasCazables ps ≠ [] →
      (∀ ip ∈ presasCazables ps, ip.2.pesoKg ≤ pesoMaximoCazables ps) ∧
      (∃ ip ∈ presasCazables ps, ip.2.pesoKg = pesoMaximoCazables ps) ∧
      presaElegida ps r ∈ empatadas ps (pesoMaximoCazables ps) ∧
      ps[(presaElegida ps r).1]? = some (presaElegida ps r).2 ∧
      d.cazar ps r =
        ({ reservaComidaKg := d.reservaComidaKg + (presaElegida ps r).2.pesoKg,
           vivo := d.vivo },
         ps.eraseIdx (presaElegida ps r).1,
         { r with ni := r.ni + 1 })) :=
  ⟨fun h => cazar_sin_cazables d ps r h, fun hne => cazar_spec d ps r hw hne⟩

theorem cazar_contrato_testigo :
    (Depredador.cazar { reservaComidaKg := 10, vivo := true } [conejoCazable]
        (randEjemplo (1 / 2) 0 (1 / 2))).1.reservaComidaKg =
      10 + (presaElegida [conejoCazable] (randEjemplo (1 / 2) 0 (1 / 2))).2.pesoKg := by
  have h := (cazar_contrato { reservaComidaKg := 10, vivo := true } [conejoCazable]
    (randEjemplo (1 / 2) 0 (1 / 2)) (by decide)).2 (by decide)
  exact congrArg (fun x => x.1.reservaComidaKg) h.2.2.2.2

/-- C3: `consumir_reserva` subtracts the optimal 5 kg when the reserve
covers it, else the minimum 3 kg when covered, else subtracts nothing
and kills the predator; and this starvation branch is the only way the
predator dies — hunting never touches the alive flag, and a predator
that is dead after a running `advance_day` must have entered the day
with a reserve below 3 kg. -/
theorem consumirReserva_contrato (d : Depredador) :
    (5 ≤ d.reservaComidaKg →
      d.consumirReserva = { reservaComidaKg := d.reservaComidaKg - 5, vivo := d.vivo }) ∧
    (¬5 ≤ d.reservaComidaKg → 3 ≤ d.reservaComidaKg →
      d.consumirReserva = { reservaComidaKg := d.reservaComidaKg - 3, vivo := d.vivo }) ∧
    (¬3 ≤ d.reservaComidaKg →
      d.consumirReserva = { reservaComidaKg := d.reservaComidaKg, vivo := false }) ∧
    (∀ (ps : List Presa) (r : RandState), (d.cazar ps r).1.vivo = d.vivo) ∧
    (∀ (crec : Especie → ℕ → ℚ) (s : Simulacion) (r : RandState),
      s.depredador.vivo = true →
      (Simulacion.avanzarDia crec s r).1.depredador.vivo = false →
      s.depredador.reservaComidaKg < 3) := by
  refine ⟨?_, ?_, ?_, fun ps r => cazar_vivo d ps r, ?_⟩
  · intro h5
    simp only [Depredador.consumirReserva, depredadorConsumoOptimoDiarioKg,
      depredadorConsumoMinimoDiarioKg]
    rw [if_pos h5]
  · intro h5 h3
    simp only [Depredador.consumirReserva, depredadorConsumoOptimoDiarioKg,
      depredadorConsumoMinimoDiarioKg]
    rw [if_neg h5, if_pos h3]
  · intro h3
    have h5 : ¬(5 : ℚ) ≤ d.reservaComidaKg := fun h => h3 (by linarith)
    simp only [Depredador.consumirReserva, depredadorConsumoOptimoDiarioKg,
      depredadorConsumoMinimoDiarioKg]
    rw [if_neg h5, if_neg h3]
  · intro crec s r hv hdead
    rw [avanzarDia_vivo crec s r hv] at hdead
    dsimp only at hdead
    rw [faseDepredador_vivo] at hdead
    rcases consumirReserva_vivo_false _ hdead with h | h
    · rw [hv] at h
      exact absurd h (by decide)
    · exact h

theorem consumirReserva_contrato_testigo :
    Depredador.consumirReserva { reservaComidaKg := 10, vivo := true } =
      { reservaComidaKg := 10 - 5, vivo := true } :=
  (consumirReserva_contrato { reservaComidaKg := 10, vivo := true }).1 (by norm_num)

/-- C4: once the predator is dead, `advance_day` returns the whole state
(day, population, predator, id counter) and the rand state unchanged. -/
theorem avanzarDia_terminal_inalterada (crec : Especie → ℕ → ℚ)
    (s : Simulacion) (r : RandState) (h : s.depredador.vivo = false) :
    Simulacion.avanzarDia crec s r = (s, r) :=
  avanzarDia_muerto crec s r h

theorem avanzarDia_terminal_inalterada_testigo :
    Simulacion.avanzarDia crecEjemplo simTerminal (randEjemplo (1 / 2) 0 (1 / 2)) =
      (simTerminal, randEjemplo (1 / 2) 0 (1 / 2)) :=
  avanzarDia_terminal_inalterada crecEjemplo simTerminal
    (randEjemplo (1 / 2) 0 (1 / 2)) rfl

/-- C5 (counterexample): `cazar` itself never checks the predator's alive
flag; called directly on a dead predator with an eligible prey it still
removes the prey and credits its weight. -/
theorem cazar_depredador_muerto_contraejemplo :
    depredadorMuerto.vivo = false ∧
    (Depredador.cazar depredadorMuerto [conejoCazable]
        (randEjemplo (1 / 2) 0 (1 / 2))).2.1 = [] ∧
    (Depredador.cazar depredadorMuerto [conejoCazable]
        (randEjemplo (1 / 2) 0 (1 / 2))).1.reservaComidaKg =
      depredadorMuerto.reservaComidaKg + conejoCazable.pesoKg := by
  refine ⟨rfl, ?_, ?_⟩ <;>
    norm_num [Depredador.cazar, presasCazables, empatadas, pesoMaximoCazables,
      chooseIdx, depredadorMuerto, conejoCazable, randEjemplo, List.enum,
      List.enumFrom, edadSacrificioDias]

/-- C5 (amended): inside `advance_day` the hunt is guarded by the alive
check at the call site, so on a day the predator starves no hunt occurs:
the population fed to the aging loop is exactly the pre-day population
and the predator is exactly the result of `consumir_reserva` (reserve
untouched by hunting). -/
theorem avanzarDia_inanicion_sin_caza (crec : Especie → ℕ → ℚ)
    (s : Simulacion) (r : RandState) (h : s.depredador.vivo = true)
    (hd : s.depredador.consumirReserva.vivo = false) :
    Simulacion.avanzarDia crec s r =
      ({ dia := s.dia + 1,
         presas := ((faseEnvejecer crec s.presas s.nextId r).1 ++
           (faseEnvejecer crec s.presas s.nextId r).2.1).filter fun p => p.vivo,
         depredador := s.depredador.consumirReserva,
         nextId := (faseEnvejecer crec s.presas s.nextId r).2.2.1 },
       (faseEnvejecer crec s.presas s.nextId r).2.2.2) := by
  have hfd : faseDepredador s r = (s.depredador.consumirReserva, s.presas, r) := by
    unfold faseDepredador
    dsimp only
    rw [if_neg]
    simp [hd]
  rw [avanzarDia_vivo crec s r h, hfd]

theorem avanzarDia_inanicion_sin_caza_testigo :
    (Simulacion.avanzarDia crecEjemplo simHambruna
        (randEjemplo (1 / 2) 0 (1 / 2))).1.depredador =
      simHambruna.depredador.consumirReserva :=
  congrArg (fun x => x.1.depredador)
    (avanzarDia_inanicion_sin_caza crecEjemplo simHambruna
      (randEjemplo (1 / 2) 0 (1 / 2)) rfl
      (by norm_num [Depredador.consumirReserva, depredadorConsumoOptimoDiarioKg,
        depredadorConsumoMinimoDiarioKg, simHambruna]))

/-- C6: a non-empty litter forces female sex, reproductive age and a
successful probability draw; the litter size lies in the species'
inclusive range (drawn by `gen_range`); each newborn carries the
parent's species, age 0 and `vivo = true`; newborn ids are the
consecutive block starting at the old counter (so each newborn receives
the next id and the counter advances exactly once per newborn).  The
parent is not mutated: `reproducirse` takes the parent immutably
(`&self` in the code) and returns only the newborns. -/
theorem reproducirse_contrato (crec : Especie → ℕ → ℚ) (p : Presa)
    (r : RandState) (nid : ℕ) :
    (p.reproducirse crec r nid).2.1 = nid + (p.reproducirse crec r nid).1.length ∧
    (p.reproducirse crec r nid).1.map Presa.id =
      List.range' nid (p.reproducirse crec r nid).1.length ∧
    (∀ c ∈ (p.reproducirse crec r nid).1,
      c.especie = p.especie ∧ c.edadDias = 0 ∧ c.vivo = true) ∧
    ((p.reproducirse crec r nid).1 ≠ [] →
      p.sexo = Sexo.Hembra ∧
      edadReproductivaDias p.especie ≤ p.edadDias ∧
      r.flt r.fi < tasaReproduccionDiaria p.especie ∧
      (criasPorParto p.especie).1 ≤ (p.reproducirse crec r nid).1.length ∧
      (p.reproducirse crec r nid).1.length ≤ (criasPorParto p.especie).2) :=
  reproducirse_spec crec p r nid

theorem reproducirse_contrato_testigo :
    (criasPorParto conejaFertil.especie).1 ≤
      (conejaFertil.reproducirse crecEjemplo
        (randEjemplo (1 / 100) 1 (1 / 2)) 10).1.length ∧
    (conejaFertil.reproducirse crecEjemplo
        (randEjemplo (1 / 100) 1 (1 / 2)) 10).1.length ≤
      (criasPorParto conejaFertil.especie).2 := by
  have hne : (conejaFertil.reproducirse crecEjemplo
      (randEjemplo (1 / 100) 1 (1 / 2)) 10).1 ≠ [] := by
    norm_num [Presa.reproducirse, conejaFertil, genBool, genRange, crearCrias,
      Presa.nuevo, randEjemplo, edadReproductivaDias, tasaReproduccionDiaria,
      criasPorParto, probabilidadNacerMacho]
    simp
  have h := (reproducirse_contrato crecEjemplo conejaFertil
    (randEjemplo (1 / 100) 1 (1 / 2)) 10).2.2.2 hne
  exact ⟨h.2.2.2.1, h.2.2.2.2⟩

/-- C7: after a completed `advance_day` every entity in the population is
alive: with a live predator this is unconditional (the `retain` filter
runs); in the terminal no-op case the (already dead-free) population is
returned unchanged, so the invariant is preserved. -/
theorem avanzarDia_poblacion_viva (crec : Especie → ℕ → ℚ)
    (s : Simulacion) (r : RandState) :
    (s.depredador.vivo = true →
      ∀ p ∈ (Simulacion.avanzarDia crec s r).1.presas, p.vivo = true) ∧
    ((∀ p ∈ s.presas, p.vivo = true) →
      ∀ p ∈ (Simulacion.avanzarDia crec s r).1.presas, p.vivo = true) := by
  have hviva : s.depredador.vivo = true →
      ∀ p ∈ (Simulacion.avanzarDia crec s r).1.presas, p.vivo = true := by
    intro h p hp
    rw [avanzarDia_vivo crec s r h] at hp
    dsimp only at hp
    exact (List.mem_filter.mp hp).2
  refine ⟨hviva, ?_⟩
  intro hall p hp
  by_cases h : s.depredador.vivo = true
  · exact hviva h p hp
  · rw [avanzarDia_muerto crec s r (by simpa using h)] at hp
    exact hall p hp

theorem avanzarDia_poblacion_viva_testigo :
    ((Simulacion.avanzarDia crecEjemplo simEjemplo
        (randEjemplo (1 / 2) 0 (1 / 2))).1.presas.all fun p => p.vivo) = true :=
  List.all_eq_true.mpr fun p hp =>
    (avanzarDia_poblacion_viva crecEjemplo simEjemplo
      (randEjemplo (1 / 2) 0 (1 / 2))).1 rfl p hp

/-- C8: the id discipline — all live ids below the counter and pairwise
distinct — holds initially (ids `0..84`, counter 85) and is preserved by
every day advance; the counter never decreases; and every id present
after a day was either already present before it or is a fresh id from
the block `[old counter, new counter)` issued that day (newborn ids are
issued as the strictly increasing consecutive block, see
`reproducirse`'s `List.range'` id image), so ids are globally issued in
strictly increasing order and never reused — also not ids of culled or
dead individuals, which were below the counter when removed. -/
theorem ids_unicos_y_crecientes :
    (∀ (crec : Especie → ℕ → ℚ) (r : RandState),
      IdsValidos (Simulacion.nueva crec r).1) ∧
    (∀ (crec : Especie → ℕ → ℚ) (s : Simulacion) (r : RandState),
      IdsValidos s → IdsValidos (Simulacion.avanzarDia crec s r).1) ∧
    (∀ (crec : Especie → ℕ → ℚ) (s : Simulacion) (r : RandState),
      s.nextId ≤ (Simulacion.avanzarDia crec s r).1.nextId) ∧
    (∀ (crec : Especie → ℕ → ℚ) (s : Simulacion) (r : RandState),
      ∀ p ∈ (Simulacion.avanzarDia crec s r).1.presas,
        p.id ∈ s.presas.map Presa.id ∨
        (s.nextId ≤ p.id ∧ p.id < (Simulacion.avanzarDia crec s r).1.nextId)) :=
  ⟨idsValidos_nueva, idsValidos_preserva, avanzarDia_nextId_mono,
   avanzarDia_ids_nuevos⟩

theorem ids_unicos_y_crecientes_testigo :
    IdsValidos (Simulacion.avanzarDia crecEjemplo simEjemplo
      (randEjemplo (1 / 2) 0 (1 / 2))).1 :=
  ids_unicos_y_crecientes.2.1 crecEjemplo simEjemplo
    (randEjemplo (1 / 2) 0 (1 / 2)) (by constructor <;> decide)

/-- C9: the Gompertz weight-at-age function produced by
`crear_funcion_gompertz` is a pure function of age (embedded over `ℝ`;
the code evaluates it in `f64`); for positive max weight and growth rate
— both species rows satisfy this: `(5, 0.05, 90)` for Rabbit and
`(75, 0.01, 180)` for Goat — it is non-decreasing in age, strictly below
the max weight everywhere, and strictly positive at age 0. -/
theorem gompertz_monotona_acotada (pesoMax k t0 : ℝ)
    (hW : 0 < pesoMax) (hk : 0 < k) :
    (∀ t1 t2 : ℝ, t1 ≤ t2 →
      crearFuncionGompertz pesoMax k t0 t1 ≤ crearFuncionGompertz pesoMax k t0 t2) ∧
    (∀ t : ℝ, crearFuncionGompertz pesoMax k t0 t < pesoMax) ∧
    0 < crearFuncionGompertz pesoMax k t0 0 := by
  unfold crearFuncionGompertz
  refine ⟨?_, ?_, ?_⟩
  · intro t1 t2 h
    dsimp only
    apply mul_le_mul_of_nonneg_left _ hW.le
    rw [Real.exp_le_exp, neg_le_neg_iff, Real.exp_le_exp]
    nlinarith [mul_le_mul_of_nonneg_left h hk.le]
  · intro t
    dsimp only
    have h1 : Real.exp (-Real.exp (-k * (t - t0))) < 1 := by
      rw [Real.exp_lt_one_iff]
      have := Real.exp_pos (-k * (t - t0))
      linarith
    calc pesoMax * Real.exp (-Real.exp (-k * (t - t0)))
        < pesoMax * 1 := by exact mul_lt_mul_of_pos_left h1 hW
      _ = pesoMax := mul_one _
  · dsimp only
    positivity

theorem gompertz_monotona_acotada_testigo :
    crearFuncionGompertz 5 (1 / 20) 90 0 < 5 :=
  (gompertz_monotona_acotada 5 (1 / 20) 90 (by norm_num) (by norm_num)).2.1 0

/-- C10 (counterexample): the disease draw of `envejecer` comes from the
global `rand::random`, not from the threaded `rng` handle (`envejecer`
takes no rng parameter at all).  Two runs from the same state whose
threaded-handle streams and positions agree in full but whose ambient
streams differ produce different states after one day advance: under
`randEnferma` the only prey dies of disease and is compacted away, under
`randSana` it survives. -/
theorem avanzarDia_fuente_ambiental_contraejemplo :
    randEnferma.flt = randSana.flt ∧ randEnferma.nat = randSana.nat ∧
    randEnferma.fi = randSana.fi ∧ randEnferma.ni = randSana.ni ∧
    randEnferma.ai = randSana.ai ∧
    (Simulacion.avanzarDia crecEjemplo simJoven randEnferma).1 ≠
      (Simulacion.avanzarDia crecEjemplo simJoven randSana).1 := by
  have h1 : (Simulacion.avanzarDia crecEjemplo simJoven randEnferma).1.presas.length = 0 := by
    norm_num [Simulacion.avanzarDia, faseDepredador, faseEnvejecer,
      Depredador.consumirReserva, Depredador.cazar, presasCazables,
      pesoMaximoCazables, empatadas, chooseIdx, Presa.envejecer, ambDraw,
      Presa.reproducirse, genBool, genRange, crearCrias, Presa.nuevo,
      edadMaximaDias, probabilidadEnfermar, edadReproductivaDias,
      tasaReproduccionDiaria, criasPorParto, probabilidadNacerMacho,
      edadSacrificioDias, depredadorConsumoOptimoDiarioKg,
      depredadorConsumoMinimoDiarioKg, conejoJoven, simJoven, randEnferma,
      randSana, randEjemplo, crecEjemplo, List.enum, List.enumFrom]
  have h2 : (Simulacion.avanzarDia crecEjemplo simJoven randSana).1.presas.length = 1 := by
    norm_num [Simulacion.avanzarDia, faseDepredador, faseEnvejecer,
      Depredador.consumirReserva, Depredador.cazar, presasCazables,
      pesoMaximoCazables, empatadas, chooseIdx, Presa.envejecer, ambDraw,
      Presa.reproducirse, genBool, genRange, crearCrias, Presa.nuevo,
      edadMaximaDias, probabilidadEnfermar, edadReproductivaDias,
      tasaReproduccionDiaria, criasPorParto, probabilidadNacerMacho,
      edadSacrificioDias, depredadorConsumoOptimoDiarioKg,
      depredadorConsumoMinimoDiarioKg, conejoJoven, simJoven, randEnferma,
      randSana, randEjemplo, crecEjemplo, List.enum, List.enumFrom]
  refine ⟨rfl, rfl, rfl, rfl, rfl, ?_⟩
  intro h
  rw [h, h2] at h1
  exact one_ne_zero h1

/-- C10 (amended): randomness is split across two access paths — sex,
reproduction gating, litter size and hunt tie-breaking are drawn through
the `ThreadRng` handle, while the disease draw of `envejecer` is drawn
through the global `rand::random` (no source can be injected).  Formally:
hunting and reproduction are invariant under replacing the ambient
stream, and aging is invariant under replacing the handle streams; given
the full collection of draw sequences the embedded `advance_day` is a
(deterministic) function of the state. -/
theorem fuentes_aleatorias_separadas :
    (∀ (d : Depredador) (ps : List Presa) (r : RandState) (a : ℕ → ℚ),
      d.cazar ps (conAmbiente r a) =
        ((d.cazar ps r).1, (d.cazar ps r).2.1,
         conAmbiente (d.cazar ps r).2.2 a)) ∧
    (∀ (crec : Especie → ℕ → ℚ) (p : Presa) (r : RandState) (nid : ℕ)
      (a : ℕ → ℚ),
      p.reproducirse crec (conAmbiente r a) nid =
        ((p.reproducirse crec r nid).1, (p.reproducirse crec r nid).2.1,
         conAmbiente (p.reproducirse crec r nid).2.2 a)) ∧
    (∀ (crec : Especie → ℕ → ℚ) (p : Presa) (r : RandState) (f : ℕ → ℚ)
      (g : ℕ → ℕ),
      p.envejecer crec (conManejador r f g) =
        ((p.envejecer crec r).1, conManejador (p.envejecer crec r).2 f g)) :=
  ⟨cazar_conAmbiente, reproducirse_conAmbiente, envejecer_conManejador⟩
